import Mathlib

/-!
# ARC4DE Terminal Session Gateway — verification of spec claims

Shallow embedding of the backend components of the ARC4DE repository
(`backend/app/core/token_store.py`, `backend/app/core/auth.py`,
`backend/app/api/auth.py`, `backend/app/core/tmux.py`,
`backend/app/ws/terminal.py`) together with theorems settling the
spec claims about them.

Conventions:
* Python in-place mutation becomes explicit state passing: a method that
  mutates `self` and may raise becomes a Lean function returning
  `Except ε Unit × State` (the state component is the post-state; on an
  error raised before any mutation it equals the input state).
* `time.monotonic()` / `datetime` timestamps are modelled as `Int`
  (seconds); callers pass the current time explicitly.
* Results of external subprocess calls (the tmux CLI) are modelled by a
  `TmuxServer` state that carries the live session table plus an oracle
  for kill-command failures, following the multiplexer-control interface
  of the spec (list-sessions yields (name, attach-count) pairs).
-/

namespace ARC4DE

/-! ## Revocation store (`backend/app/core/token_store.py`, `RefreshTokenStore`)

`_active_jtis` is a Python `set[str]`; we model it as a duplicate-free
`List String` (`add` inserts only when absent, matching set semantics). -/

structure RefreshTokenStore where
  active_jtis : List String
  deriving Repr, DecidableEq

namespace RefreshTokenStore

/-- A fresh store (`RefreshTokenStore.__init__`). -/
def init : RefreshTokenStore := ⟨[]⟩

/-- `is_valid`: membership in the active set. -/
def is_valid (s : RefreshTokenStore) (jti : String) : Bool :=
  s.active_jtis.contains jti

/-- `add`: register a JTI as active (`set.add`, idempotent). -/
def add (s : RefreshTokenStore) (jti : String) : RefreshTokenStore :=
  if s.active_jtis.contains jti then s else ⟨jti :: s.active_jtis⟩

/-- `revoke`: `set.discard` — remove if present, no error if absent. -/
def revoke (s : RefreshTokenStore) (jti : String) : RefreshTokenStore :=
  ⟨s.active_jtis.filter (fun j => j ≠ jti)⟩

/-- `rotate`: raises `ValueError` when `old_jti` is not active (before any
mutation), otherwise discards `old_jti` and adds `new_jti`. -/
def rotate (s : RefreshTokenStore) (old_jti new_jti : String) :
    Except String Unit × RefreshTokenStore :=
  if ¬ s.active_jtis.contains old_jti then
    (.error ("Refresh token " ++ old_jti ++ " is not active"), s)
  else
    (.ok (), (s.revoke old_jti).add new_jti)

end RefreshTokenStore

/-! ## Login guard (`backend/app/core/token_store.py`, `LoginRateLimiter`) -/

structure LoginRateLimiter where
  max_attempts : Nat
  window_seconds : Int
  lockout_seconds : Int
  failures : List Int
  locked_until : Option Int
  deriving Repr, DecidableEq

namespace LoginRateLimiter

/-- A fresh limiter with the default configuration
(5 attempts / 60 s window / 900 s lockout). -/
def init : LoginRateLimiter :=
  { max_attempts := 5
    window_seconds := 60
    lockout_seconds := 900
    failures := []
    locked_until := none }

/-- `is_locked`: true while a lockout timestamp is set and not elapsed;
clears expired lockout state (and the failure list) as a side effect. -/
def is_locked (s : LoginRateLimiter) (now : Int) : Bool × LoginRateLimiter :=
  match s.locked_until with
  | some t =>
      if now < t then (true, s)
      else (false, { s with locked_until := none, failures := [] })
  | none => (false, s)

/-- `record_failure`: append the current time, prune entries outside the
sliding window, and set a lockout once the pruned count reaches the
threshold. -/
def record_failure (s : LoginRateLimiter) (now : Int) : LoginRateLimiter :=
  let pruned := (s.failures ++ [now]).filter (fun t => t > now - s.window_seconds)
  if pruned.length ≥ s.max_attempts then
    { s with failures := pruned, locked_until := some (now + s.lockout_seconds) }
  else
    { s with failures := pruned }

/-- `reset`: clear all failure history and lockout. -/
def reset (s : LoginRateLimiter) : LoginRateLimiter :=
  { s with failures := [], locked_until := none }

/-- Record a sequence of failures in order. -/
def recordAll (s : LoginRateLimiter) (ts : List Int) : LoginRateLimiter :=
  ts.foldl record_failure s

end LoginRateLimiter

/-! ## Auth endpoints (`backend/app/api/auth.py`)

Token decoding is modelled abstractly at this level: a presented refresh
token is represented by the `Option String` outcome of
`decode_refresh_token` — `none` when decoding raises, `some jti`
otherwise.  The fresh jti minted by `create_token_pair` (a random
`uuid4().hex`) is passed in as a parameter. -/

inductive LoginResult where
  | lockedOut
  | invalidPassword
  | success (jti : String)
  deriving Repr, DecidableEq

/-- The `/api/auth/login` route: lockout check first, then the password
check (recording a failure on mismatch), then reset of the limiter and
registration of the fresh refresh jti. -/
def login (rl : LoginRateLimiter) (store : RefreshTokenStore) (now : Int)
    (passwordOk : Bool) (freshJti : String) :
    LoginResult × LoginRateLimiter × RefreshTokenStore :=
  match rl.is_locked now with
  | (true, rl') => (.lockedOut, rl', store)
  | (false, rl') =>
      if ¬ passwordOk then (.invalidPassword, rl'.record_failure now, store)
      else (.success freshJti, rl'.reset, store.add freshJti)

inductive RefreshOutcome where
  | ok (newJti : String)
  | authError (detail : String)
  | serverError (detail : String)
  deriving Repr, DecidableEq

/-- The `/api/auth/refresh` route: decode the presented refresh token
(401 on failure), reject with 401 if its jti is not active, otherwise
mint a fresh pair and rotate.  An exception escaping `rotate` would be a
server error, not an auth error — `serverError` models that uncaught
path. -/
def refresh (store : RefreshTokenStore) (decoded : Option String)
    (freshJti : String) : RefreshOutcome × RefreshTokenStore :=
  match decoded with
  | none => (.authError "Invalid refresh token", store)
  | some oldJti =>
      if store.is_valid oldJti = false then
        (.authError "Refresh token has been revoked or already used", store)
      else
        match store.rotate oldJti freshJti with
        | (.ok _, store') => (.ok freshJti, store')
        | (.error e, store') => (.serverError e, store')

/-! ## Helper lemmas about the revocation store -/

namespace RefreshTokenStore

theorem is_valid_iff_mem (s : RefreshTokenStore) (j : String) :
    s.is_valid j = true ↔ j ∈ s.active_jtis :=
  List.elem_iff

theorem is_valid_add_self (s : RefreshTokenStore) (j : String) :
    (s.add j).is_valid j = true := by
  simp only [add]
  split
  · assumption
  · rw [is_valid_iff_mem]
    exact List.mem_cons_self _ _

theorem is_valid_add_of_ne (s : RefreshTokenStore) (j k : String) (h : k ≠ j) :
    (s.add j).is_valid k = s.is_valid k := by
  simp only [add]
  split
  · rfl
  · show (List.cons j s.active_jtis).contains k = s.active_jtis.contains k
    simp [List.contains_cons, h]

theorem is_valid_revoke_self (s : RefreshTokenStore) (j : String) :
    (s.revoke j).is_valid j = false := by
  rw [Bool.eq_false_iff]
  intro hc
  rw [is_valid_iff_mem] at hc
  simp only [revoke, List.mem_filter] at hc
  simp at hc

end RefreshTokenStore

/-- The property asserted by claim C1, at a given store and jtis:
`rotate` succeeds iff the old jti is active; failure leaves the store
unchanged; success deactivates the old jti and activates the new one;
and at the endpoint level, a login (registering `oldJti`) followed by
one refresh yields the fresh jti and makes a second refresh presenting
`oldJti` fail with the auth error. -/
def RotationSpec (s : RefreshTokenStore) (oldJti newJti freshJti2 : String) : Prop :=
  ((s.rotate oldJti newJti).1.isOk = true ↔ s.is_valid oldJti = true)
  ∧ ((s.rotate oldJti newJti).1.isOk = false → (s.rotate oldJti newJti).2 = s)
  ∧ ((s.rotate oldJti newJti).1.isOk = true →
      ((s.rotate oldJti newJti).2.is_valid oldJti = false
        ∧ (s.rotate oldJti newJti).2.is_valid newJti = true))
  ∧ ((refresh (s.add oldJti) (some oldJti) newJti).1 = .ok newJti)
  ∧ ((refresh ((refresh (s.add oldJti) (some oldJti) newJti).2)
        (some oldJti) freshJti2).1
      = .authError "Refresh token has been revoked or already used")

/-- C1: Refresh-token rotation invalidates the prior token:
`rotate(old_jti, new_jti)` fails iff `old_jti` is not currently active,
leaving the store unchanged on failure; on success `old_jti` becomes
inactive and `new_jti` active; so for every login followed by one
refresh minting a fresh jti, the new refresh token's jti differs from
the old and a second refresh presenting the old token is rejected with
an auth error. -/
theorem rotation_invalidates_prior_token (s : RefreshTokenStore)
    (oldJti newJti freshJti2 : String) (hfresh : newJti ≠ oldJti) :
    RotationSpec s oldJti newJti freshJti2 := by
  have hrot_ok : ∀ s' : RefreshTokenStore, oldJti ∈ s'.active_jtis →
      s'.rotate oldJti newJti = (.ok (), (s'.revoke oldJti).add newJti) := by
    intro s' hm
    simp [RefreshTokenStore.rotate, hm]
  have hrot_err : ∀ s' : RefreshTokenStore, oldJti ∉ s'.active_jtis →
      s'.rotate oldJti newJti =
        (.error ("Refresh token " ++ oldJti ++ " is not active"), s') := by
    intro s' hm
    simp [RefreshTokenStore.rotate, hm]
  have hpost_old : ∀ s' : RefreshTokenStore,
      ((s'.revoke oldJti).add newJti).is_valid oldJti = false := by
    intro s'
    rw [RefreshTokenStore.is_valid_add_of_ne _ _ _ (Ne.symm hfresh)]
    exact RefreshTokenStore.is_valid_revoke_self s' oldJti
  have hv_add : (s.add oldJti).is_valid oldJti = true :=
    RefreshTokenStore.is_valid_add_self s oldJti
  have hm_add : oldJti ∈ (s.add oldJti).active_jtis :=
    (RefreshTokenStore.is_valid_iff_mem _ _).mp hv_add
  refine ⟨?_, ?_, ?_, ?_, ?_⟩
  · by_cases hm : oldJti ∈ s.active_jtis
    · rw [hrot_ok s hm, RefreshTokenStore.is_valid_iff_mem]
      simp [Except.isOk, Except.toBool, hm]
    · rw [hrot_err s hm, RefreshTokenStore.is_valid_iff_mem]
      simp [Except.isOk, Except.toBool, hm]
  · intro h
    by_cases hm : oldJti ∈ s.active_jtis
    · rw [hrot_ok s hm] at h
      simp [Except.isOk, Except.toBool] at h
    · rw [hrot_err s hm]
  · intro h
    by_cases hm : oldJti ∈ s.active_jtis
    · rw [hrot_ok s hm]
      exact ⟨hpost_old s, RefreshTokenStore.is_valid_add_self _ _⟩
    · rw [hrot_err s hm] at h
      simp [Except.isOk, Except.toBool] at h
  · simp only [refresh, hv_add, Bool.true_eq_false, if_false]
    rw [hrot_ok _ hm_add]
  · simp only [refresh, hv_add, Bool.true_eq_false, if_false]
    rw [hrot_ok _ hm_add]
    dsimp only
    rw [if_pos (hpost_old (s.add oldJti))]

/-- Witness for C1 at a concrete store and concrete jtis. -/
theorem rotation_invalidates_prior_token_witness :
    ("b" : String) ≠ "a" ∧ RotationSpec ⟨[]⟩ "a" "b" "c" :=
  ⟨by decide, rotation_invalidates_prior_token ⟨[]⟩ "a" "b" "c" (by decide)⟩

/-! ## Helper lemmas about the login guard -/

namespace LoginRateLimiter

theorem record_failure_max_attempts (s : LoginRateLimiter) (now : Int) :
    (s.record_failure now).max_attempts = s.max_attempts := by
  dsimp only [record_failure]
  split <;> rfl

theorem record_failure_length_le (s : LoginRateLimiter) (now : Int) :
    (s.record_failure now).failures.length ≤ s.failures.length + 1 := by
  dsimp only [record_failure]
  split
  all_goals
    calc ((s.failures ++ [now]).filter
            (fun t => t > now - s.window_seconds)).length
        ≤ (s.failures ++ [now]).length := List.length_filter_le _ _
      _ = s.failures.length + 1 := by simp

theorem record_failure_locked_until (s : LoginRateLimiter) (now : Int)
    (h : s.failures.length + 1 < s.max_attempts) :
    (s.record_failure now).locked_until = s.locked_until := by
  dsimp only [record_failure]
  rw [if_neg]
  intro hge
  have hle : ((s.failures ++ [now]).filter
      (fun t => t > now - s.window_seconds)).length
      ≤ s.failures.length + 1 := by
    calc ((s.failures ++ [now]).filter
            (fun t => t > now - s.window_seconds)).length
        ≤ (s.failures ++ [now]).length := List.length_filter_le _ _
      _ = s.failures.length + 1 := by simp
  omega

/-- Fewer recorded failures than the threshold never set a lockout. -/
theorem recordAll_locked_until_none (ts : List Int) :
    ∀ s : LoginRateLimiter, s.locked_until = none →
      s.failures.length + ts.length < s.max_attempts →
      ((s.recordAll ts).locked_until = none
        ∧ (s.recordAll ts).failures.length ≤ s.failures.length + ts.length) := by
  induction ts with
  | nil => intro s h _; exact ⟨h, Nat.le_refl _⟩
  | cons t ts ih =>
      intro s h hlen
      have hlen1 : s.failures.length + 1 < s.max_attempts := by
        have := List.length_cons t ts
        omega
      have hlock := record_failure_locked_until s t hlen1
      have hle := record_failure_length_le s t
      have hmax := record_failure_max_attempts s t
      have hrec : (s.recordAll (t :: ts)) = ((s.record_failure t).recordAll ts) := rfl
      rw [hrec]
      have hlen' : (s.record_failure t).failures.length + ts.length
          < (s.record_failure t).max_attempts := by
        simp only [List.length_cons] at hlen
        omega
      obtain ⟨h1, h2⟩ := ih (s.record_failure t) (by rw [hlock, h]) hlen'
      refine ⟨h1, ?_⟩
      simp only [List.length_cons]
      omega

/-- `record_failure` when every timestamp (old and new) lies inside the
sliding window of `now`: nothing is pruned, and the lockout is set
exactly when the count reaches the threshold. -/
theorem record_failure_in_window (s : LoginRateLimiter) (now : Int)
    (hw : 0 < s.window_seconds)
    (hall : ∀ t ∈ s.failures, now - s.window_seconds < t) :
    s.record_failure now =
      if s.failures.length + 1 ≥ s.max_attempts then
        { s with failures := s.failures ++ [now],
                 locked_until := some (now + s.lockout_seconds) }
      else
        { s with failures := s.failures ++ [now] } := by
  have hfilter : (s.failures ++ [now]).filter
      (fun t => t > now - s.window_seconds) = s.failures ++ [now] := by
    rw [List.filter_eq_self]
    intro a ha
    rcases List.mem_append.mp ha with hmem | hmem
    · exact decide_eq_true (hall a hmem)
    · have : a = now := by simpa using hmem
      subst this
      exact decide_eq_true (by omega)
  dsimp only [record_failure]
  rw [hfilter]
  simp only [List.length_append, List.length_cons, List.length_nil]

end LoginRateLimiter

/-- C2: Below the threshold (default 5) the guard never locks and login
with the correct password succeeds; five failures inside the 60 s
sliding window set a 900 s lockout, the next login attempt before the
lockout elapses is rejected with the lockout error regardless of the
password, and after the lockout elapses login with the correct password
succeeds again. -/
theorem lockout_at_threshold :
    (∀ ts : List Int, ts.length < 5 →
      (LoginRateLimiter.init.recordAll ts).locked_until = none
      ∧ (∀ now : Int, ((LoginRateLimiter.init.recordAll ts).is_locked now).1 = false)
      ∧ (∀ (store : RefreshTokenStore) (now : Int) (j : String),
          (login (LoginRateLimiter.init.recordAll ts) store now true j).1
            = .success j))
    ∧ (∀ t1 t2 t3 t4 t5 : Int, t1 ≤ t2 → t2 ≤ t3 → t3 ≤ t4 → t4 ≤ t5 →
        t5 - 60 < t1 →
        (LoginRateLimiter.init.recordAll [t1, t2, t3, t4, t5]).locked_until
            = some (t5 + 900)
        ∧ (∀ (store : RefreshTokenStore) (now : Int) (pw : Bool) (j : String),
            now < t5 + 900 →
            (login (LoginRateLimiter.init.recordAll [t1, t2, t3, t4, t5])
                store now pw j).1 = .lockedOut)
        ∧ (∀ (store : RefreshTokenStore) (now : Int) (j : String),
            t5 + 900 ≤ now →
            (login (LoginRateLimiter.init.recordAll [t1, t2, t3, t4, t5])
                store now true j).1 = .success j)) := by
  constructor
  · intro ts hlen
    have hcfg : LoginRateLimiter.init.failures.length + ts.length
        < LoginRateLimiter.init.max_attempts := by
      simp only [LoginRateLimiter.init, List.length_nil]
      omega
    obtain ⟨hnone, -⟩ :=
      LoginRateLimiter.recordAll_locked_until_none ts LoginRateLimiter.init rfl hcfg
    refine ⟨hnone, ?_, ?_⟩
    · intro now
      simp [LoginRateLimiter.is_locked, hnone]
    · intro store now j
      simp [login, LoginRateLimiter.is_locked, hnone]
  · intro t1 t2 t3 t4 t5 h12 h23 h34 h45 hwin
    have stepNo : ∀ (fs : List Int) (tk : Int), fs.length + 1 < 5 →
        (∀ t ∈ fs, tk - 60 < t) →
        (⟨5, 60, 900, fs, none⟩ : LoginRateLimiter).record_failure tk
          = ⟨5, 60, 900, fs ++ [tk], none⟩ := by
      intro fs tk hlen hall
      rw [LoginRateLimiter.record_failure_in_window _ _ (by norm_num) hall]
      dsimp only
      rw [if_neg (by omega)]
    have stepYes : ∀ (fs : List Int) (tk : Int), fs.length + 1 ≥ 5 →
        (∀ t ∈ fs, tk - 60 < t) →
        (⟨5, 60, 900, fs, none⟩ : LoginRateLimiter).record_failure tk
          = ⟨5, 60, 900, fs ++ [tk], some (tk + 900)⟩ := by
      intro fs tk hlen hall
      rw [LoginRateLimiter.record_failure_in_window _ _ (by norm_num) hall]
      dsimp only
      rw [if_pos (by omega)]
    have e1 : (⟨5, 60, 900, [], none⟩ : LoginRateLimiter).record_failure t1
        = ⟨5, 60, 900, [t1], none⟩ := by
      rw [stepNo [] t1 (by norm_num) (by intro t ht; simp at ht)]
      rfl
    have e2 : (⟨5, 60, 900, [t1], none⟩ : LoginRateLimiter).record_failure t2
        = ⟨5, 60, 900, [t1, t2], none⟩ := by
      rw [stepNo [t1] t2 (by norm_num)
        (by intro t ht; simp at ht; omega)]
      rfl
    have e3 : (⟨5, 60, 900, [t1, t2], none⟩ : LoginRateLimiter).record_failure t3
        = ⟨5, 60, 900, [t1, t2, t3], none⟩ := by
      rw [stepNo [t1, t2] t3 (by norm_num)
        (by intro t ht; simp at ht; rcases ht with h | h <;> omega)]
      rfl
    have e4 : (⟨5, 60, 900, [t1, t2, t3], none⟩ : LoginRateLimiter).record_failure t4
        = ⟨5, 60, 900, [t1, t2, t3, t4], none⟩ := by
      rw [stepNo [t1, t2, t3] t4 (by norm_num)
        (by intro t ht; simp at ht; rcases ht with h | h | h <;> omega)]
      rfl
    have e5 : (⟨5, 60, 900, [t1, t2, t3, t4], none⟩ : LoginRateLimiter).record_failure t5
        = ⟨5, 60, 900, [t1, t2, t3, t4, t5], some (t5 + 900)⟩ := by
      rw [stepYes [t1, t2, t3, t4] t5 (by norm_num)
        (by intro t ht; simp at ht; rcases ht with h | h | h | h <;> omega)]
      rfl
    have eAll : LoginRateLimiter.init.recordAll [t1, t2, t3, t4, t5]
        = ⟨5, 60, 900, [t1, t2, t3, t4, t5], some (t5 + 900)⟩ := by
      have hinit : LoginRateLimiter.init
          = (⟨5, 60, 900, [], none⟩ : LoginRateLimiter) := rfl
      simp only [LoginRateLimiter.recordAll, List.foldl_cons, List.foldl_nil,
        hinit, e1, e2, e3, e4, e5]
    refine ⟨by rw [eAll], ?_, ?_⟩
    · intro store now pw j hnow
      rw [eAll]
      simp [login, LoginRateLimiter.is_locked, hnow]
    · intro store now j hnow
      rw [eAll]
      simp only [login, LoginRateLimiter.is_locked]
      rw [if_neg (by omega)]
      simp

/-- Witness for C2 at concrete failure times 0,10,20,30,40 (all within
one 60 s window), probing lockout at time 100 and expiry at time 940. -/
theorem lockout_at_threshold_witness :
    ((LoginRateLimiter.init.recordAll [0, 10]).locked_until = none)
    ∧ ((LoginRateLimiter.init.recordAll [0, 10, 20, 30, 40]).locked_until
        = some 940)
    ∧ ((login (LoginRateLimiter.init.recordAll [0, 10, 20, 30, 40])
        ⟨[]⟩ 100 false "j").1 = .lockedOut)
    ∧ ((login (LoginRateLimiter.init.recordAll [0, 10, 20, 30, 40])
        ⟨[]⟩ 940 true "j").1 = .success "j") :=
  ⟨(lockout_at_threshold.1 [0, 10] (by norm_num)).1,
   (lockout_at_threshold.2 0 10 20 30 40 (by norm_num) (by norm_num)
      (by norm_num) (by norm_num) (by norm_num)).1,
   (lockout_at_threshold.2 0 10 20 30 40 (by norm_num) (by norm_num)
      (by norm_num) (by norm_num) (by norm_num)).2.1 ⟨[]⟩ 100 false "j"
      (by norm_num),
   (lockout_at_threshold.2 0 10 20 30 40 (by norm_num) (by norm_num)
      (by norm_num) (by norm_num) (by norm_num)).2.2 ⟨[]⟩ 940 "j"
      (by norm_num)⟩

/-! ## Token authority (`backend/app/core/auth.py`)

`jose.jwt.decode` is an external library call; a presented token is
modelled by its signature validity, its expiry status, and its decoded
claim set (claim name ↦ string value), and `jwt.decode` by the jose
behaviour the code relies on: raise `JWTError` iff the signature is
invalid or the token is expired, otherwise return the claims. -/

structure JwtToken where
  sigValid : Bool
  expired : Bool
  claims : List (String × String)
  deriving Repr, DecidableEq

/-- `jose.jwt.decode(token, secret, algorithms=[ALGORITHM])`. -/
def jwt_decode (t : JwtToken) : Except String (List (String × String)) :=
  if t.sigValid = false then .error "Signature verification failed"
  else if t.expired = true then .error "Signature has expired"
  else .ok t.claims

/-- Python `payload.get(key)`: `none` when the claim is absent. -/
def claimLookup (claims : List (String × String)) (k : String) : Option String :=
  match claims.find? (fun p => p.1 == k) with
  | some p => some p.2
  | none => none

/-- `decode_access_token`: decode, then require the `type` discriminator
to be `"access"`. -/
def decode_access_token (t : JwtToken) :
    Except String (List (String × String)) :=
  match jwt_decode t with
  | .error e => .error e
  | .ok payload =>
      if claimLookup payload "type" ≠ some "access" then
        .error "Token is not an access token"
      else .ok payload

/-- `decode_refresh_token`: decode, require discriminator `"refresh"`,
and additionally require a `jti` claim. -/
def decode_refresh_token (t : JwtToken) :
    Except String (List (String × String)) :=
  match jwt_decode t with
  | .error e => .error e
  | .ok payload =>
      if claimLookup payload "type" ≠ some "refresh" then
        .error "Token is not a refresh token"
      else if claimLookup payload "jti" = none then
        .error "Refresh token missing jti"
      else .ok payload

/-- C8: Access-token verification fails exactly when the signature is
invalid, the token is expired, or the `type` discriminator is not
`"access"`; refresh-token verification fails under the same conditions
for discriminator `"refresh"` and additionally when `jti` is absent;
otherwise each returns the decoded claims. -/
theorem token_verification_failure_conditions (t : JwtToken) :
    ((decode_access_token t).isOk = false ↔
      (t.sigValid = false ∨ t.expired = true
        ∨ claimLookup t.claims "type" ≠ some "access"))
    ∧ (∀ p, decode_access_token t = .ok p → p = t.claims)
    ∧ ((decode_refresh_token t).isOk = false ↔
      (t.sigValid = false ∨ t.expired = true
        ∨ claimLookup t.claims "type" ≠ some "refresh"
        ∨ claimLookup t.claims "jti" = none))
    ∧ (∀ p, decode_refresh_token t = .ok p → p = t.claims) := by
  rcases Bool.eq_false_or_eq_true t.sigValid with hs | hs
  · rcases Bool.eq_false_or_eq_true t.expired with he | he
    · simp [decode_access_token, decode_refresh_token, jwt_decode, hs, he,
        Except.isOk, Except.toBool]
    · refine ⟨?_, ?_, ?_, ?_⟩
      · by_cases hty : claimLookup t.claims "type" = some "access" <;>
          simp [decode_access_token, jwt_decode, hs, he, hty,
            Except.isOk, Except.toBool]
      · intro p hp
        by_cases hty : claimLookup t.claims "type" = some "access" <;>
          simp [decode_access_token, jwt_decode, hs, he, hty] at hp <;>
          simp [hp]
      · by_cases hty : claimLookup t.claims "type" = some "refresh"
        · by_cases hj : claimLookup t.claims "jti" = none <;>
            simp [decode_refresh_token, jwt_decode, hs, he, hty, hj,
              Except.isOk, Except.toBool]
        · simp [decode_refresh_token, jwt_decode, hs, he, hty,
            Except.isOk, Except.toBool]
      · intro p hp
        by_cases hty : claimLookup t.claims "type" = some "refresh"
        · by_cases hj : claimLookup t.claims "jti" = none <;>
            simp [decode_refresh_token, jwt_decode, hs, he, hty, hj] at hp <;>
            simp [hp]
        · simp [decode_refresh_token, jwt_decode, hs, he, hty] at hp
  · simp [decode_access_token, decode_refresh_token, jwt_decode, hs,
      Except.isOk, Except.toBool]

/-- Witness for C8: valid tokens with the right discriminators decode to
their claims. -/
theorem token_verification_failure_conditions_witness :
    (decode_access_token ⟨true, false, [("type", "access")]⟩
        = .ok [("type", "access")]
      ∧ ([("type", "access")] : List (String × String))
          = (⟨true, false, [("type", "access")]⟩ : JwtToken).claims)
    ∧ (decode_refresh_token ⟨true, false, [("type", "refresh"), ("jti", "x")]⟩
        = .ok [("type", "refresh"), ("jti", "x")]
      ∧ ([("type", "refresh"), ("jti", "x")] : List (String × String))
          = (⟨true, false, [("type", "refresh"), ("jti", "x")]⟩ : JwtToken).claims) :=
  ⟨⟨rfl, (token_verification_failure_conditions _).2.1 _ rfl⟩,
   ⟨rfl, (token_verification_failure_conditions _).2.2.2 _ rfl⟩⟩

/-! ## Gateway auth phase (`backend/app/ws/terminal.py`, `terminal_handler`)

The first receive on the socket either times out (30 s), observes a
disconnect, or yields a JSON message, modelled by `FirstRecv`.  The
message's `token` field defaults to `""` when absent
(`raw.get("token", "")`), so a missing token is the empty string.
Decoding of the presented token string is `decode_access_token` on the
`JwtToken` denoted by the string (the `env` parameter); session
existence is the tmux `has-session` probe (the `sessionExists`
parameter). -/

def AUTH_TIMEOUT_SECONDS : Nat := 30

structure Frame where
  ftype : String
  text : String
  deriving Repr, DecidableEq

inductive FirstRecv where
  | timeout
  | disconnect
  | msg (mtype : String) (token : String) (session_id : Option String)
  deriving Repr, DecidableEq

inductive AuthOutcome where
  | silent
  | fail (frame : Frame) (closeCode : Nat)
  | proceed (session_id : Option String)
  deriving Repr, DecidableEq

/-- Lines 40–77 of `terminal_handler`: the auth phase up to and
including the unknown-session check, ending either in a close (with the
failure frame sent just before) or in proceeding to attach. -/
def auth_phase (recv : FirstRecv) (env : String → JwtToken)
    (sessionExists : String → Bool) : AuthOutcome :=
  match recv with
  | .timeout => .fail ⟨"auth.fail", "Auth timeout"⟩ 4001
  | .disconnect => .silent
  | .msg mtype token sid =>
      if mtype ≠ "auth" then
        .fail ⟨"auth.fail", "Expected auth message"⟩ 4002
      else if token = "" then
        .fail ⟨"auth.fail", "Missing token"⟩ 4003
      else if (decode_access_token (env token)).isOk = false then
        .fail ⟨"auth.fail", "Invalid or expired token"⟩ 4004
      else
        match sid with
        | some s =>
            if sessionExists s = false then
              .fail ⟨"error", "Session " ++ s ++ " not found"⟩ 4005
            else .proceed (some s)
        | none => .proceed none

/-- C3: The five auth-phase failure causes close with five pairwise
distinct close codes (timeout 4001, wrong first-message type 4002,
missing token 4003, invalid/expired token 4004, unknown session 4005),
the auth timeout is fixed at 30 s, and every failure is preceded by a
frame carrying a nonempty human-readable reason string. -/
theorem auth_failures_distinguished :
    AUTH_TIMEOUT_SECONDS = 30
    ∧ List.Nodup [4001, 4002, 4003, 4004, 4005]
    ∧ (∀ env se, auth_phase .timeout env se
        = .fail ⟨"auth.fail", "Auth timeout"⟩ 4001)
    ∧ (∀ env se mtype token sid, mtype ≠ "auth" →
        auth_phase (.msg mtype token sid) env se
          = .fail ⟨"auth.fail", "Expected auth message"⟩ 4002)
    ∧ (∀ env se sid, auth_phase (.msg "auth" "" sid) env se
        = .fail ⟨"auth.fail", "Missing token"⟩ 4003)
    ∧ (∀ env se token sid, token ≠ "" →
        (decode_access_token (env token)).isOk = false →
        auth_phase (.msg "auth" token sid) env se
          = .fail ⟨"auth.fail", "Invalid or expired token"⟩ 4004)
    ∧ (∀ env se token s, token ≠ "" →
        (decode_access_token (env token)).isOk = true →
        se s = false →
        auth_phase (.msg "auth" token (some s)) env se
          = .fail ⟨"error", "Session " ++ s ++ " not found"⟩ 4005)
    ∧ (∀ recv env se f c, auth_phase recv env se = .fail f c →
        f.text ≠ "") := by
  refine ⟨rfl, by norm_num, fun env se => rfl, ?_, ?_, ?_, ?_, ?_⟩
  · intro env se mtype token sid h
    simp [auth_phase, h]
  · intro env se sid
    simp [auth_phase]
  · intro env se token sid htok hdec
    simp [auth_phase, htok, hdec]
  · intro env se token s htok hdec hse
    simp [auth_phase, htok, hdec, hse]
  · intro recv env se f c h
    have hne : ∀ s : String, ("Session " ++ s ++ " not found") ≠ "" := by
      intro s he
      have := congrArg String.data he
      simp [String.data_append] at this
    cases recv with
    | timeout =>
        simp only [auth_phase] at h
        cases h
        simp
    | disconnect => simp [auth_phase] at h
    | msg mtype token sid =>
        simp only [auth_phase] at h
        by_cases h1 : mtype = "auth"
        · rw [if_neg (by simp [h1])] at h
          by_cases h2 : token = ""
          · rw [if_pos h2] at h
            cases h
            simp
          · rw [if_neg h2] at h
            by_cases h3 : (decode_access_token (env token)).isOk = false
            · rw [if_pos h3] at h
              cases h
              simp
            · rw [if_neg h3] at h
              cases sid with
              | none => cases h
              | some s =>
                  dsimp only at h
                  by_cases h4 : se s = false
                  · rw [if_pos h4] at h
                    cases h
                    exact hne s
                  · rw [if_neg h4] at h
                    cases h
        · rw [if_pos (by simp [h1])] at h
          cases h
          simp

/-- Witness for C3 at concrete inputs: a wrong first-message type closes
with 4002, and a valid token with an unknown session id closes with
4005. -/
theorem auth_failures_distinguished_witness :
    (("input" : String) ≠ "auth"
      ∧ auth_phase (.msg "input" "tok" none)
          (fun _ => ⟨true, false, [("type", "access")]⟩) (fun _ => true)
        = .fail ⟨"auth.fail", "Expected auth message"⟩ 4002)
    ∧ (("tok" : String) ≠ ""
      ∧ (decode_access_token ⟨true, false, [("type", "access")]⟩).isOk = true
      ∧ (fun (_ : String) => false) "sid0" = false
      ∧ auth_phase (.msg "auth" "tok" (some "sid0"))
          (fun _ => ⟨true, false, [("type", "access")]⟩) (fun _ => false)
        = .fail ⟨"error", "Session " ++ "sid0" ++ " not found"⟩ 4005) :=
  ⟨⟨by decide,
    auth_failures_distinguished.2.2.2.1
      (fun _ => ⟨true, false, [("type", "access")]⟩) (fun _ => true)
      "input" "tok" none (by decide)⟩,
   ⟨by decide, rfl, rfl,
    auth_failures_distinguished.2.2.2.2.2.2.1
      (fun _ => ⟨true, false, [("type", "access")]⟩) (fun _ => false)
      "tok" "sid0" (by decide) rfl rfl⟩⟩

/-! ## Gateway message loop (`backend/app/ws/terminal.py`, `_message_loop`)

One post-auth client message is modelled by the optional fields the
handler reads (`msg.get("type")`, `msg.get("data", "")`,
`msg.get("cols", 80)`, `msg.get("rows", 24)`); handling a message is a
pure function from the message to the ordered list of side effects the
handler performs. -/

structure RawMsg where
  mtype : Option String
  data : Option String
  cols : Option Int
  rows : Option Int
  deriving Repr, DecidableEq

inductive Effect where
  | sendPong
  | writePty (data : String)
  | resizePty (rows cols : Int)
  | resizeTmux (tmux_name : String) (cols rows : Int)
  | sendError (message : String)
  deriving Repr, DecidableEq

/-- One iteration of `_message_loop` (lines 204–231): dispatch on the
message type; `resize` performs the pty window-size ioctl
(`_resize_pty`, TIOCSWINSZ on the master fd) and then the tmux
`resize-window` command (`_resize_tmux`), in that order. -/
def handle_message (tmux_name : String) (msg : RawMsg) : List Effect :=
  if msg.mtype = some "ping" then [.sendPong]
  else if msg.mtype = some "input" then
    let data := msg.data.getD ""
    if data ≠ "" then [.writePty data] else []
  else if msg.mtype = some "resize" then
    let cols := msg.cols.getD 80
    let rows := msg.rows.getD 24
    [.resizePty rows cols, .resizeTmux tmux_name cols rows]
  else
    [.sendError ("Unknown message type: "
      ++ (msg.mtype.getD "None"))]

/-- C7: For every `resize{cols,rows}` frame received after
authentication, the gateway applies the new window size to both
targets: the TIOCSWINSZ ioctl on the pty's controlling descriptor and a
`resize-window` command for the bound tmux session; neither update is
skipped. -/
theorem resize_updates_both_targets (tmux_name : String)
    (data : Option String) (cols rows : Option Int) :
    handle_message tmux_name ⟨some "resize", data, cols, rows⟩
        = [.resizePty (rows.getD 24) (cols.getD 80),
           .resizeTmux tmux_name (cols.getD 80) (rows.getD 24)]
    ∧ Effect.resizePty (rows.getD 24) (cols.getD 80)
        ∈ handle_message tmux_name ⟨some "resize", data, cols, rows⟩
    ∧ Effect.resizeTmux tmux_name (cols.getD 80) (rows.getD 24)
        ∈ handle_message tmux_name ⟨some "resize", data, cols, rows⟩ := by
  refine ⟨by simp [handle_message], ?_, ?_⟩ <;> simp [handle_message]

/-! ## Gateway teardown (`backend/app/ws/terminal.py`, lines 110–128)

The `finally:` block of `terminal_handler`.  Each step's runtime
outcome (return vs. raised exception) is an input; `try/except E: pass`
is modelled by `tryExcept`, and an uncaught exception aborts the steps
that follow, as it would in Python.  In the source, awaiting the
cancelled reader task can only raise `asyncio.CancelledError`
(`_pty_reader` swallows every other exception), `os.close` only
`OSError`, and `proc.kill()` only `ProcessLookupError` — exactly the
types the three `except` clauses catch. -/

inductive PyErr where
  | cancelledError
  | osError
  | processLookupError
  | otherError (msg : String)
  deriving Repr, DecidableEq

inductive TeardownStep where
  | cancelReader
  | awaitReader
  | closeMasterFd
  | killProc
  | waitProc
  deriving Repr, DecidableEq

structure TeardownEnv where
  awaitReaderResult : Except PyErr Unit
  closeResult : Except PyErr Unit
  killResult : Except PyErr Unit
  waitResult : Except PyErr Unit

/-- Python `try: act / except E: pass` for a caught-exception predicate. -/
def tryExcept (act : Except PyErr Unit) (caught : PyErr → Bool) :
    Except PyErr Unit :=
  match act with
  | .ok () => .ok ()
  | .error e => if caught e then .ok () else .error e

/-- The teardown block: returns the steps that executed, in order, and
the final outcome. -/
def teardown (env : TeardownEnv) : List TeardownStep × Except PyErr Unit :=
  let steps := [TeardownStep.cancelReader, TeardownStep.awaitReader]
  match tryExcept env.awaitReaderResult (fun e => e == PyErr.cancelledError) with
  | .error e => (steps, .error e)
  | .ok () =>
      let steps := steps ++ [TeardownStep.closeMasterFd]
      match tryExcept env.closeResult (fun e => e == PyErr.osError) with
      | .error e => (steps, .error e)
      | .ok () =>
          let steps := steps ++ [TeardownStep.killProc]
          match tryExcept env.killResult (fun e => e == PyErr.processLookupError) with
          | .error e => (steps, .error e)
          | .ok () => (steps ++ [TeardownStep.waitProc], env.waitResult)

/-- C6: On every gateway teardown the cleanup steps run unconditionally
and in order — cancel the reader task, await it, close the pty master
descriptor, kill the attach process, reap it — and every step still
executes even when an earlier step fails, because each step's possible
error (`CancelledError` from the await, `OSError` from the close,
`ProcessLookupError` from the kill) is swallowed by its `except`
clause. -/
theorem teardown_runs_all_steps (env : TeardownEnv)
    (h1 : env.awaitReaderResult = .ok ()
        ∨ env.awaitReaderResult = .error .cancelledError)
    (h2 : env.closeResult = .ok () ∨ env.closeResult = .error .osError)
    (h3 : env.killResult = .ok ()
        ∨ env.killResult = .error .processLookupError) :
    (teardown env).1 = [.cancelReader, .awaitReader, .closeMasterFd,
      .killProc, .waitProc] := by
  rcases h1 with h1 | h1 <;> rcases h2 with h2 | h2 <;>
    rcases h3 with h3 | h3 <;>
      simp [teardown, tryExcept, h1, h2, h3]

/-- Witness for C6 with every fallible step failing with its swallowed
exception type. -/
theorem teardown_runs_all_steps_witness :
    (teardown ⟨.error .cancelledError, .error .osError,
        .error .processLookupError, .ok ()⟩).1
      = [.cancelReader, .awaitReader, .closeMasterFd, .killProc,
         .waitProc] :=
  teardown_runs_all_steps
    ⟨.error .cancelledError, .error .osError, .error .processLookupError,
      .ok ()⟩
    (Or.inr rfl) (Or.inr rfl) (Or.inr rfl)

/-! ## Session registry (`backend/app/core/tmux.py`)

tmux-level strings (session names, ids, command output) are modelled as
`List Char` (abbreviated `Str`), the underlying representation of
Python/Lean strings, so that prefix stripping and splitting admit
direct structural lemmas.

The tmux server itself is external state: it is modelled by its session
table — a list of `(session_name, attach_count)` pairs, exactly the
shape the code's `list-sessions -F "#{session_name}:#{session_attached}"`
format reports — plus an oracle `killFails` saying which `kill-session`
commands exit nonzero (a live tmux can refuse a kill independently of
the preceding `has-session` probe). `new-session` fails exactly on a
duplicate name; `has-session` succeeds exactly on a present name. -/

abbrev Str := List Char

/-- The fixed gateway prefix `"arc4de-"`. -/
def arcPfx : Str := "arc4de-".data

/-- One `_session_registry` value: cached display name and creation
time (`none` models the empty-string fallback for a missing
timestamp). -/
structure RegEntry where
  name : Str
  created_at : Option Int
  deriving Repr, DecidableEq

abbrev Registry := List (Str × RegEntry)

/-- Python `_session_registry.get(session_id, {})` ∘ `.get(...)`. -/
def lookupReg (id : Str) : Registry → Option RegEntry
  | [] => none
  | (k, e) :: r => if k = id then some e else lookupReg id r

/-- Python `_session_registry.pop(session_id, None)`. -/
def eraseReg (id : Str) (r : Registry) : Registry :=
  r.filter (fun p => p.1 ≠ id)

/-- Python `_session_registry[session_id] = {...}`. -/
def insertReg (id : Str) (e : RegEntry) (r : Registry) : Registry :=
  (id, e) :: eraseReg id r

structure TmuxServer where
  sessions : List (Str × Nat)
  killFails : Str → Bool

structure TmuxState where
  server : TmuxServer
  registry : Registry

/-- `tmux has-session -t name` exits 0 iff the name is present. -/
def hasSession (srv : TmuxServer) (tmux_name : Str) : Bool :=
  srv.sessions.any (fun p => p.1 = tmux_name)

/-- `tmux new-session -d -s name ...`: duplicate names are refused. -/
def newSession (srv : TmuxServer) (tmux_name : Str) : Nat × TmuxServer :=
  if hasSession srv tmux_name then (1, srv)
  else (0, { srv with sessions := srv.sessions ++ [(tmux_name, 0)] })

/-- `tmux kill-session -t name`: nonzero exit when the name is absent
or when the oracle says this kill fails; otherwise the name is removed
from the session table. -/
def killSession (srv : TmuxServer) (tmux_name : Str) : Nat × TmuxServer :=
  if hasSession srv tmux_name = false then (1, srv)
  else if srv.killFails tmux_name then (1, srv)
  else (0, { srv with sessions := srv.sessions.filter (fun p => p.1 ≠ tmux_name) })

/-- Python `s.startswith(pfx)` followed by `s.removeprefix(pfx)`, fused:
`some rest` iff `s = pfx ++ rest`. -/
def dropPfx : Str → Str → Option Str
  | [], s => some s
  | _ :: _, [] => none
  | p :: ps, c :: cs => if p = c then dropPfx ps cs else none

structure SessionInfo where
  session_id : Str
  name : Str
  tmux_name : Str
  state : Str
  created_at : Option Int
  deriving Repr, DecidableEq

inductive TmuxError where
  | notFound (id : Str)
  | backend (msg : Str)
  deriving Repr, DecidableEq

/-- `TmuxManager.create_session` (lines 56–76): the generated
`uuid4().hex[:12]` id and the current time are inputs; on a nonzero
exit of `new-session` the registry is untouched and a `RuntimeError`
is raised, otherwise the metadata is recorded and the `SessionInfo`
(state `"detached"`) returned. -/
def create_session (st : TmuxState) (session_id : Str) (name : Str)
    (now : Int) : Except TmuxError (TmuxState × SessionInfo) :=
  let tmux_name := arcPfx ++ session_id
  let r := newSession st.server tmux_name
  if r.1 ≠ 0 then .error (.backend "Failed to create tmux session".data)
  else .ok
    ({ server := r.2,
       registry := insertReg session_id ⟨name, some now⟩ st.registry },
     ⟨session_id, name, tmux_name, "detached".data, some now⟩)

/-- The per-line body of `TmuxManager.list_sessions` (lines 87–110),
applied to one reported `(session_name, attach_count)` pair: skip names
without the gateway prefix, derive the id by stripping it, compute
state from the attach count, and fall back to the raw id / empty
timestamp when the registry has no record. -/
def sessionFromPair (registry : Registry) (p : Str × Nat) :
    Option SessionInfo :=
  match dropPfx arcPfx p.1 with
  | none => none
  | some session_id =>
      let reg := lookupReg session_id registry
      some ⟨session_id,
            (reg.map RegEntry.name).getD session_id,
            p.1,
            if p.2 ≠ 0 then "active".data else "detached".data,
            reg.bind RegEntry.created_at⟩

/-- `TmuxManager.list_sessions` over the structured session table (the
string transport layer is embedded separately as
`list_sessions_from_output` below and settled by claim C10). -/
def list_sessions (st : TmuxState) : List SessionInfo :=
  st.server.sessions.filterMap (sessionFromPair st.registry)

/-- `TmuxManager.session_exists` (lines 114–118). -/
def session_exists (st : TmuxState) (session_id : Str) : Bool :=
  hasSession st.server (arcPfx ++ session_id)

/-- `TmuxManager.kill_session` (lines 120–130): existence probe first
(`ValueError` when absent), then the kill command (`RuntimeError` on
nonzero exit), and only then the registry pop. -/
def kill_session (st : TmuxState) (session_id : Str) :
    Except TmuxError Unit × TmuxState :=
  if session_exists st session_id = false then
    (.error (.notFound session_id), st)
  else
    let r := killSession st.server (arcPfx ++ session_id)
    if r.1 ≠ 0 then
      (.error (.backend "Failed to kill session".data), { st with server := r.2 })
    else
      (.ok (), { server := r.2, registry := eraseReg session_id st.registry })

/-- One iteration of the sweep loop in
`TmuxManager.cleanup_expired_sessions` (lines 165–177): look the listed
session up in the (current) registry, skip it when there is no cached
creation time, kill it when the cached time is strictly older than the
cutoff, swallow any kill failure, and record the id only on success. -/
def cleanupStep (cutoff : Int) (acc : List Str × TmuxState)
    (session : SessionInfo) : List Str × TmuxState :=
  match (lookupReg session.session_id acc.2.registry).bind RegEntry.created_at with
  | none => acc
  | some created =>
      if created < cutoff then
        match kill_session acc.2 session.session_id with
        | (.ok _, st') => (acc.1 ++ [session.session_id], st')
        | (.error _, st') => (acc.1, st')
      else acc

/-- `TmuxManager.cleanup_expired_sessions` (lines 156–179): cutoff is
`now - ttl_hours` (in seconds), the session list is taken once up
front, and the sweep folds over it. -/
def cleanup_expired_sessions (st : TmuxState) (now : Int)
    (ttl_hours : Int) : List Str × TmuxState :=
  let cutoff := now - ttl_hours * 3600
  (list_sessions st).foldl (cleanupStep cutoff) ([], st)

/-! ### Helper lemmas about the session registry model -/

theorem dropPfx_eq_some (p : Str) : ∀ (s r : Str),
    dropPfx p s = some r ↔ s = p ++ r := by
  induction p with
  | nil =>
      intro s r
      simp [dropPfx]
  | cons c p ih =>
      intro s r
      cases s with
      | nil => simp [dropPfx]
      | cons c' s' =>
          simp only [dropPfx, List.cons_append, List.cons.injEq]
          by_cases h : c = c'
          · subst h
            rw [if_pos rfl, ih]
            simp
          · rw [if_neg h]
            constructor
            · intro hh
              cases hh
            · rintro ⟨hh, -⟩
              exact absurd hh.symm h

theorem dropPfx_append (p r : Str) : dropPfx p (p ++ r) = some r :=
  (dropPfx_eq_some p (p ++ r) r).mpr rfl

theorem hasSession_eq_mem_map (srv : TmuxServer) (n : Str) :
    hasSession srv n = true ↔ n ∈ srv.sessions.map Prod.fst := by
  simp only [hasSession, List.any_eq_true, List.mem_map, decide_eq_true_eq]

theorem hasSession_filter_ne (l : List (Str × Nat)) (kf : Str → Bool)
    (n m : Str) (h : n ≠ m) :
    hasSession ⟨l.filter (fun p => p.1 ≠ m), kf⟩ n
      = hasSession ⟨l, kf⟩ n := by
  rcases Bool.eq_false_or_eq_true (hasSession ⟨l, kf⟩ n) with hb | hb
  · rw [hb]
    rw [hasSession_eq_mem_map] at hb ⊢
    obtain ⟨p, hp, hpn⟩ := List.mem_map.mp hb
    refine List.mem_map.mpr ⟨p, List.mem_filter.mpr ⟨hp, ?_⟩, hpn⟩
    simpa [hpn] using h
  · rw [hb, Bool.eq_false_iff]
    intro hc
    rw [hasSession_eq_mem_map] at hc
    obtain ⟨p, hp, hpn⟩ := List.mem_map.mp hc
    have hp' : p ∈ l := List.mem_of_mem_filter hp
    rw [Bool.eq_false_iff] at hb
    exact hb ((hasSession_eq_mem_map ⟨l, kf⟩ n).mpr
      (List.mem_map.mpr ⟨p, hp', hpn⟩))

theorem lookupReg_eraseReg_ne (id id' : Str) (r : Registry)
    (h : id' ≠ id) : lookupReg id' (eraseReg id r) = lookupReg id' r := by
  induction r with
  | nil => rfl
  | cons p r ih =>
      obtain ⟨k, e⟩ := p
      by_cases hk : k = id
      · have h1 : eraseReg id ((k, e) :: r) = eraseReg id r := by
          simp [eraseReg, hk]
        have h2 : lookupReg id' ((k, e) :: r) = lookupReg id' r := by
          simp only [lookupReg]
          rw [if_neg]
          rw [hk]
          exact fun hh => h hh.symm
        rw [h1, h2, ih]
      · have h1 : eraseReg id ((k, e) :: r) = (k, e) :: eraseReg id r := by
          simp [eraseReg, hk]
        rw [h1]
        simp only [lookupReg]
        by_cases hk' : k = id'
        · simp [hk']
        · simp [hk', ih]

theorem lookupReg_insertReg_self (id : Str) (e : RegEntry) (r : Registry) :
    lookupReg id (insertReg id e r) = some e := by
  simp [insertReg, lookupReg]

theorem sessionFromPair_some {reg : Registry} {p : Str × Nat}
    {e : SessionInfo} (h : sessionFromPair reg p = some e) :
    p.1 = arcPfx ++ e.session_id ∧ e.tmux_name = p.1 := by
  unfold sessionFromPair at h
  cases hd : dropPfx arcPfx p.1 with
  | none => rw [hd] at h; cases h
  | some sid =>
      rw [hd] at h
      cases h
      exact ⟨(dropPfx_eq_some _ _ _).mp hd, rfl⟩

theorem kill_session_not_found (st : TmuxState) (id : Str)
    (h : session_exists st id = false) :
    kill_session st id = (.error (.notFound id), st) := by
  simp [kill_session, h]

theorem kill_session_backend_failure (st : TmuxState) (id : Str)
    (h : session_exists st id = true)
    (hk : st.server.killFails (arcPfx ++ id) = true) :
    kill_session st id
      = (.error (.backend "Failed to kill session".data), st) := by
  have hks : killSession st.server (arcPfx ++ id) = (1, st.server) := by
    simp [killSession, session_exists] at h ⊢
    simp [h, hk]
  simp [kill_session, h, hks]

theorem kill_session_ok (st : TmuxState) (id : Str)
    (h : session_exists st id = true)
    (hk : st.server.killFails (arcPfx ++ id) = false) :
    kill_session st id
      = (.ok (), ⟨⟨st.server.sessions.filter (fun p => p.1 ≠ arcPfx ++ id),
            st.server.killFails⟩, eraseReg id st.registry⟩) := by
  have hks : killSession st.server (arcPfx ++ id)
      = (0, ⟨st.server.sessions.filter (fun p => p.1 ≠ arcPfx ++ id),
          st.server.killFails⟩) := by
    simp [killSession, session_exists] at h ⊢
    simp [h, hk]
  simp [kill_session, h, hks]

/-- C4: Session registry round-trip: after `create(name)` succeeds,
`list()` contains an entry whose session id matches the created one and
whose tmux-level name is the fixed prefix followed by that id; after
`kill(id)` succeeds, `list()` no longer contains an entry with that id;
`kill` on an id with no live tmux session fails with not-found. -/
theorem session_registry_roundtrip (st : TmuxState) (id name : Str)
    (now : Int) :
    (∀ st' info, create_session st id name now = .ok (st', info) →
        info.session_id = id ∧ info.tmux_name = arcPfx ++ id
        ∧ ∃ e ∈ list_sessions st',
            e.session_id = id ∧ e.tmux_name = arcPfx ++ id)
    ∧ ((kill_session st id).1.isOk = true →
        ∀ e ∈ list_sessions (kill_session st id).2, e.session_id ≠ id)
    ∧ (session_exists st id = false →
        kill_session st id = (.error (.notFound id), st)) := by
  refine ⟨?_, ?_, kill_session_not_found st id⟩
  · intro st' info h
    rcases Bool.eq_false_or_eq_true (hasSession st.server (arcPfx ++ id))
      with hdup | hdup
    · have hnew : newSession st.server (arcPfx ++ id) = (1, st.server) := by
        simp [newSession, hdup]
      simp only [create_session, hnew] at h
      rw [if_pos (by norm_num)] at h
      cases h
    · have hnew : newSession st.server (arcPfx ++ id)
          = (0, ⟨st.server.sessions ++ [(arcPfx ++ id, 0)],
              st.server.killFails⟩) := by
        simp [newSession, hdup]
      simp only [create_session, hnew] at h
      rw [if_neg (by norm_num)] at h
      cases h
      refine ⟨rfl, rfl, ?_⟩
      refine ⟨⟨id, name, arcPfx ++ id, "detached".data, some now⟩,
        List.mem_filterMap.mpr ⟨(arcPfx ++ id, 0), by simp, ?_⟩, rfl, rfl⟩
      simp [sessionFromPair, dropPfx_append, lookupReg_insertReg_self]
  · intro hok e he
    rcases Bool.eq_false_or_eq_true (session_exists st id) with hex | hex
    · rcases Bool.eq_false_or_eq_true
        (st.server.killFails (arcPfx ++ id)) with hkf | hkf
      · rw [kill_session_backend_failure st id hex hkf] at hok
        simp [Except.isOk, Except.toBool] at hok
      · rw [kill_session_ok st id hex hkf] at he
        intro hid
        obtain ⟨p, hp, hsp⟩ := List.mem_filterMap.mp he
        have h1 := (sessionFromPair_some hsp).1
        rw [hid] at h1
        have hp2 := (List.mem_filter.mp hp).2
        rw [h1] at hp2
        simp at hp2
    · rw [kill_session_not_found st id hex] at hok
      simp [Except.isOk, Except.toBool] at hok

/-- Witness for C4: create a session on an empty server, observe it in
the listing, and kill an unknown id. -/
theorem session_registry_roundtrip_witness :
    ((⟨['a'], ['n'], arcPfx ++ ['a'], "detached".data, some 0⟩
        : SessionInfo).session_id = ['a']
      ∧ (⟨['a'], ['n'], arcPfx ++ ['a'], "detached".data, some 0⟩
        : SessionInfo).tmux_name = arcPfx ++ ['a']
      ∧ ∃ e ∈ list_sessions ⟨⟨[(arcPfx ++ ['a'], 0)], fun _ => false⟩,
            [(['a'], ⟨['n'], some 0⟩)]⟩,
          e.session_id = ['a'] ∧ e.tmux_name = arcPfx ++ ['a'])
    ∧ kill_session (⟨⟨[], fun _ => false⟩, []⟩ : TmuxState) ['b']
        = (.error (.notFound ['b']), ⟨⟨[], fun _ => false⟩, []⟩) :=
  ⟨(session_registry_roundtrip ⟨⟨[], fun _ => false⟩, []⟩ ['a'] ['n'] 0).1
      ⟨⟨[(arcPfx ++ ['a'], 0)], fun _ => false⟩, [(['a'], ⟨['n'], some 0⟩)]⟩
      ⟨['a'], ['n'], arcPfx ++ ['a'], "detached".data, some 0⟩ rfl,
   (session_registry_roundtrip ⟨⟨[], fun _ => false⟩, []⟩ ['b'] ['n'] 0).2.2
      rfl⟩

/-- C9: `kill(id)` is atomic with respect to the cached metadata: the
registry entry is pruned only when the tmux kill command succeeds; when
the existence probe fails or the kill command exits nonzero,
`kill_session` returns an error and the registry (cached display name
and creation time) is unchanged. -/
theorem kill_session_registry_atomic (st : TmuxState) (id : Str) :
    ((kill_session st id).1.isOk = false →
        (kill_session st id).2.registry = st.registry)
    ∧ (session_exists st id = false →
        kill_session st id = (.error (.notFound id), st))
    ∧ (session_exists st id = true →
        st.server.killFails (arcPfx ++ id) = true →
        kill_session st id
          = (.error (.backend "Failed to kill session".data), st))
    ∧ ((kill_session st id).1.isOk = true →
        (kill_session st id).2.registry = eraseReg id st.registry) := by
  refine ⟨?_, kill_session_not_found st id,
    kill_session_backend_failure st id, ?_⟩
  · intro hfail
    rcases Bool.eq_false_or_eq_true (session_exists st id) with hex | hex
    · rcases Bool.eq_false_or_eq_true
        (st.server.killFails (arcPfx ++ id)) with hkf | hkf
      · rw [kill_session_backend_failure st id hex hkf]
      · rw [kill_session_ok st id hex hkf] at hfail
        simp [Except.isOk, Except.toBool] at hfail
    · rw [kill_session_not_found st id hex]
  · intro hok
    rcases Bool.eq_false_or_eq_true (session_exists st id) with hex | hex
    · rcases Bool.eq_false_or_eq_true
        (st.server.killFails (arcPfx ++ id)) with hkf | hkf
      · rw [kill_session_backend_failure st id hex hkf] at hok
        simp [Except.isOk, Except.toBool] at hok
      · rw [kill_session_ok st id hex hkf]
    · rw [kill_session_not_found st id hex] at hok
      simp [Except.isOk, Except.toBool] at hok

/-- Witness for C9: a kill whose tmux command fails leaves the cached
metadata unchanged. -/
theorem kill_session_registry_atomic_witness :
    kill_session (⟨⟨[(arcPfx ++ ['a'], 0)], fun _ => true⟩,
        [(['a'], ⟨['n'], some 0⟩)]⟩ : TmuxState) ['a']
      = (.error (.backend "Failed to kill session".data),
          ⟨⟨[(arcPfx ++ ['a'], 0)], fun _ => true⟩,
            [(['a'], ⟨['n'], some 0⟩)]⟩)
    ∧ (kill_session (⟨⟨[(arcPfx ++ ['a'], 0)], fun _ => true⟩,
        [(['a'], ⟨['n'], some 0⟩)]⟩ : TmuxState) ['a']).2.registry
      = [(['a'], ⟨['n'], some 0⟩)] :=
  ⟨(kill_session_registry_atomic
      ⟨⟨[(arcPfx ++ ['a'], 0)], fun _ => true⟩,
        [(['a'], ⟨['n'], some 0⟩)]⟩ ['a']).2.2.1 (by decide) rfl,
   (kill_session_registry_atomic
      ⟨⟨[(arcPfx ++ ['a'], 0)], fun _ => true⟩,
        [(['a'], ⟨['n'], some 0⟩)]⟩ ['a']).1 (by decide)⟩

/-! ### The string transport layer of `list_sessions` (lines 78–112)

`list_sessions` consumes the raw `(returncode, stdout)` pair of
`tmux list-sessions -F "#{session_name}:#{session_attached}"` (stdout
already stripped by `_run_tmux`).  Python `str.split(":")` and
`str.splitlines()` are embedded at the character-list level. -/

/-- Python `s.split(sep)` for a one-character separator: splits at every
occurrence; the empty string yields `[""]`. -/
def splitOnChar (c : Char) : Str → List Str
  | [] => [[]]
  | x :: xs =>
      match splitOnChar c xs with
      | [] => [[]]
      | p :: ps => if x = c then [] :: p :: ps else (x :: p) :: ps

/-- Python `s.splitlines()` on a stripped (no trailing newline)
string. -/
def splitlinesStripped (s : Str) : List Str :=
  if s = [] then [] else splitOnChar '\n' s

/-- The per-line body of the `list_sessions` parse loop (lines 87–110):
`line.split(":")`, skip lines with fewer than two parts, skip names
without the `arc4de-` prefix, otherwise strip the prefix and build the
`SessionInfo` (attach count `"0"` means detached; display name falls
back to the raw id and the creation time to empty when the registry has
no record). -/
def parseSessionLine (registry : Registry) (line : Str) :
    Option SessionInfo :=
  match splitOnChar ':' line with
  | tmux_name :: attached :: _ =>
      match dropPfx arcPfx tmux_name with
      | none => none
      | some session_id =>
          let reg := lookupReg session_id registry
          some ⟨session_id,
                (reg.map RegEntry.name).getD session_id,
                tmux_name,
                if attached ≠ ['0'] then "active".data else "detached".data,
                reg.bind RegEntry.created_at⟩
  | _ => none

/-- `TmuxManager.list_sessions` from the raw subprocess result (lines
80–112): nonzero exit or empty output yields `[]`; otherwise the
parseable prefixed lines. -/
def list_sessions_from_output (registry : Registry) (rc : Int)
    (stdout : Str) : List SessionInfo :=
  if rc ≠ 0 ∨ stdout = [] then []
  else (splitlinesStripped stdout).filterMap (parseSessionLine registry)

/-- C10: `list()` is total and never surfaces a backend failure: a
nonzero exit or empty output of the tmux list command yields the empty
list rather than an error; every returned entry comes from a line that
split into at least two `:`-parts whose first part carries the gateway
prefix (and equals the entry's tmux name); lines with fewer than two
parts, and lines whose name lacks the prefix, are silently skipped. -/
theorem list_sessions_never_fails (registry : Registry) (rc : Int)
    (stdout : Str) :
    (rc ≠ 0 → list_sessions_from_output registry rc stdout = [])
    ∧ (stdout = [] → list_sessions_from_output registry rc stdout = [])
    ∧ (∀ e ∈ list_sessions_from_output registry rc stdout,
        e.tmux_name = arcPfx ++ e.session_id
        ∧ ∃ line ∈ splitlinesStripped stdout, ∃ attached rest,
            splitOnChar ':' line = e.tmux_name :: attached :: rest)
    ∧ (∀ line : Str, (splitOnChar ':' line).length < 2 →
        parseSessionLine registry line = none)
    ∧ (∀ (line tmux_name attached : Str) (rest : List Str),
        splitOnChar ':' line = tmux_name :: attached :: rest →
        dropPfx arcPfx tmux_name = none →
        parseSessionLine registry line = none) := by
  refine ⟨?_, ?_, ?_, ?_, ?_⟩
  · intro h
    simp [list_sessions_from_output, h]
  · intro h
    simp [list_sessions_from_output, h]
  · intro e he
    by_cases hc : rc ≠ 0 ∨ stdout = []
    · simp [list_sessions_from_output, hc] at he
    · rw [list_sessions_from_output, if_neg hc] at he
      obtain ⟨line, hline, hparse⟩ := List.mem_filterMap.mp he
      cases hsplit : splitOnChar ':' line with
      | nil => simp [parseSessionLine, hsplit] at hparse
      | cons tmux_name parts =>
          cases parts with
          | nil => simp [parseSessionLine, hsplit] at hparse
          | cons attached rest =>
              simp only [parseSessionLine, hsplit] at hparse
              cases hd : dropPfx arcPfx tmux_name with
              | none => rw [hd] at hparse; cases hparse
              | some sid =>
                  rw [hd] at hparse
                  cases hparse
                  refine ⟨(dropPfx_eq_some _ _ _).mp hd, line, hline,
                    attached, rest, hsplit⟩
  · intro line hlen
    cases hsplit : splitOnChar ':' line with
    | nil => simp [parseSessionLine, hsplit]
    | cons tmux_name parts =>
        cases parts with
        | nil => simp [parseSessionLine, hsplit]
        | cons attached rest =>
            rw [hsplit] at hlen
            simp at hlen
            omega
  · intro line tmux_name attached rest hsplit hd
    simp [parseSessionLine, hsplit, hd]

/-- Witness for C10: a failing list command, a prefix-free line, and a
colon-free line all contribute nothing; a well-formed line parses. -/
theorem list_sessions_never_fails_witness :
    (list_sessions_from_output [] 1 "arc4de-a:0".data = [])
    ∧ (list_sessions_from_output [] 0 [] = [])
    ∧ (parseSessionLine [] "abc".data = none)
    ∧ (parseSessionLine [] "foo:1".data = none) :=
  ⟨(list_sessions_never_fails [] 1 "arc4de-a:0".data).1 (by norm_num),
   (list_sessions_never_fails [] 0 []).2.1 rfl,
   (list_sessions_never_fails [] 0 []).2.2.2.1 "abc".data (by decide),
   (list_sessions_never_fails [] 0 []).2.2.2.2 "foo:1".data "foo".data
     ['1'] [] (by decide) (by decide)⟩

/-! ### The expiry sweep (claim C5) -/

/-- Whether the sweep removes a listed session id, in terms of the
pre-sweep state: it has a cached creation time strictly older than the
cutoff, and its kill command succeeds (the kill-failure oracle is
false for its tmux name). -/
def shouldRemove (st : TmuxState) (cutoff : Int) (sid : Str) : Bool :=
  match (lookupReg sid st.registry).bind RegEntry.created_at with
  | none => false
  | some created =>
      decide (created < cutoff) && ! st.server.killFails (arcPfx ++ sid)

theorem filterMap_session_ids (reg : Registry) (l : List (Str × Nat)) :
    (l.filterMap (sessionFromPair reg)).map SessionInfo.session_id
      = l.filterMap (fun p => dropPfx arcPfx p.1) := by
  induction l with
  | nil => rfl
  | cons p l ih =>
      cases hd : dropPfx arcPfx p.1 with
      | none =>
          have hsp : sessionFromPair reg p = none := by
            simp [sessionFromPair, hd]
          simp [List.filterMap_cons, hsp, hd, ih]
      | some sid =>
          have hsp : sessionFromPair reg p
              = some ⟨sid, ((lookupReg sid reg).map RegEntry.name).getD sid,
                  p.1, if p.2 ≠ 0 then "active".data else "detached".data,
                  (lookupReg sid reg).bind RegEntry.created_at⟩ := by
            simp [sessionFromPair, hd]
          simp [List.filterMap_cons, hsp, hd, ih]

theorem nodup_dropPfx_ids (l : List (Str × Nat))
    (h : (l.map Prod.fst).Nodup) :
    (l.filterMap (fun p => dropPfx arcPfx p.1)).Nodup := by
  induction l with
  | nil => simp
  | cons p l ih =>
      simp only [List.map_cons, List.nodup_cons] at h
      obtain ⟨hnotin, hnd⟩ := h
      simp only [List.filterMap_cons]
      cases hd : dropPfx arcPfx p.1 with
      | none => exact ih hnd
      | some sid =>
          refine List.nodup_cons.mpr ⟨?_, ih hnd⟩
          intro hmem
          obtain ⟨q, hq, hdq⟩ := List.mem_filterMap.mp hmem
          have h1 : p.1 = arcPfx ++ sid := (dropPfx_eq_some _ _ _).mp hd
          have h2 : q.1 = arcPfx ++ sid := (dropPfx_eq_some _ _ _).mp hdq
          exact hnotin (List.mem_map.mpr ⟨q, hq, by rw [h2, ← h1]⟩)

/-- The sweep fold, characterised against the pre-sweep state `st`: as
long as the current state `stc` agrees with `st` on the registry
entries, live tmux names, and kill oracle of the sessions still to be
processed (and their ids are pairwise distinct), the fold removes
exactly the `shouldRemove` sessions, leaves untouched tmux names alive,
and retains every processed session that `shouldRemove` rejects. -/
theorem cleanup_fold (st : TmuxState) (cutoff : Int) :
    ∀ (ss : List SessionInfo) (acc : List Str) (stc : TmuxState),
      (ss.map SessionInfo.session_id).Nodup →
      (∀ s ∈ ss, lookupReg s.session_id stc.registry
          = lookupReg s.session_id st.registry) →
      (∀ s ∈ ss, hasSession stc.server (arcPfx ++ s.session_id) = true) →
      stc.server.killFails = st.server.killFails →
      ((ss.foldl (cleanupStep cutoff) (acc, stc)).1
          = acc ++ ss.filterMap (fun t =>
              if shouldRemove st cutoff t.session_id = true
              then some t.session_id else none))
      ∧ (∀ name : Str, hasSession stc.server name = true →
          (∀ t ∈ ss, name ≠ arcPfx ++ t.session_id) →
          hasSession (ss.foldl (cleanupStep cutoff) (acc, stc)).2.server
            name = true)
      ∧ (∀ t ∈ ss, shouldRemove st cutoff t.session_id = false →
          hasSession (ss.foldl (cleanupStep cutoff) (acc, stc)).2.server
            (arcPfx ++ t.session_id) = true) := by
  intro ss
  induction ss with
  | nil =>
      intro acc stc _ _ _ _
      refine ⟨by simp, ?_, ?_⟩
      · intro name hname _
        simpa using hname
      · intro t ht _
        simp at ht
  | cons s ss ih =>
      intro acc stc hnodup hreg hexists hkf
      have hlook : lookupReg s.session_id stc.registry
          = lookupReg s.session_id st.registry :=
        hreg s (List.mem_cons_self s ss)
      have hex : hasSession stc.server (arcPfx ++ s.session_id) = true :=
        hexists s (List.mem_cons_self s ss)
      simp only [List.map_cons, List.nodup_cons] at hnodup
      obtain ⟨hhead, htail⟩ := hnodup
      have hne_tail : ∀ t ∈ ss, s.session_id ≠ t.session_id := by
        intro t ht heq
        exact hhead (List.mem_map.mpr ⟨t, ht, heq.symm⟩)
      have flow0 : cleanupStep cutoff (acc, stc) s = (acc, stc) →
          shouldRemove st cutoff s.session_id = false →
          (((s :: ss).foldl (cleanupStep cutoff) (acc, stc)).1
              = acc ++ (s :: ss).filterMap (fun t =>
                  if shouldRemove st cutoff t.session_id = true
                  then some t.session_id else none))
          ∧ (∀ name : Str, hasSession stc.server name = true →
              (∀ t ∈ s :: ss, name ≠ arcPfx ++ t.session_id) →
              hasSession (((s :: ss).foldl (cleanupStep cutoff)
                (acc, stc))).2.server name = true)
          ∧ (∀ t ∈ s :: ss, shouldRemove st cutoff t.session_id = false →
              hasSession (((s :: ss).foldl (cleanupStep cutoff)
                (acc, stc))).2.server (arcPfx ++ t.session_id) = true) := by
        intro hstep hsr
        obtain ⟨ih1, ih2, ih3⟩ := ih acc stc htail
          (fun t ht => hreg t (List.mem_cons_of_mem s ht))
          (fun t ht => hexists t (List.mem_cons_of_mem s ht)) hkf
        refine ⟨?_, ?_, ?_⟩
        · rw [List.foldl_cons, hstep, ih1]
          simp [List.filterMap_cons, hsr]
        · intro name hname hall
          rw [List.foldl_cons, hstep]
          exact ih2 name hname (fun t ht => hall t (List.mem_cons_of_mem s ht))
        · intro t ht hsrt
          rw [List.foldl_cons, hstep]
          rcases List.mem_cons.mp ht with rfl | ht'
          · exact ih2 (arcPfx ++ t.session_id) hex
              (fun u hu hequ => hne_tail u hu (List.append_cancel_left hequ))
          · exact ih3 t ht' hsrt
      cases hc : (lookupReg s.session_id st.registry).bind RegEntry.created_at with
      | none =>
          have hstep : cleanupStep cutoff (acc, stc) s = (acc, stc) := by
            unfold cleanupStep
            dsimp only
            rw [hlook, hc]
          have hsr : shouldRemove st cutoff s.session_id = false := by
            simp [shouldRemove, hc]
          exact flow0 hstep hsr
      | some created =>
          by_cases hlt : created < cutoff
          · rcases Bool.eq_false_or_eq_true
              (st.server.killFails (arcPfx ++ s.session_id)) with hkfv | hkfv
            · -- the kill command for this session fails: swept past
              have hkfc : stc.server.killFails (arcPfx ++ s.session_id)
                  = true := by rw [hkf]; exact hkfv
              have hkill := kill_session_backend_failure stc s.session_id
                hex hkfc
              have hstep : cleanupStep cutoff (acc, stc) s = (acc, stc) := by
                unfold cleanupStep
                dsimp only
                rw [hlook, hc]
                dsimp only
                rw [if_pos hlt, hkill]
              have hsr : shouldRemove st cutoff s.session_id = false := by
                simp [shouldRemove, hc, hkfv]
              exact flow0 hstep hsr
            · -- the kill succeeds: the id is recorded and state shrinks
              have hkfc : stc.server.killFails (arcPfx ++ s.session_id)
                  = false := by rw [hkf]; exact hkfv
              have hkill := kill_session_ok stc s.session_id hex hkfc
              have hstep : cleanupStep cutoff (acc, stc) s
                  = (acc ++ [s.session_id],
                     ⟨⟨stc.server.sessions.filter
                         (fun p => p.1 ≠ arcPfx ++ s.session_id),
                       stc.server.killFails⟩,
                      eraseReg s.session_id stc.registry⟩) := by
                unfold cleanupStep
                dsimp only
                rw [hlook, hc]
                dsimp only
                rw [if_pos hlt, hkill]
              have hsr : shouldRemove st cutoff s.session_id = true := by
                simp [shouldRemove, hc, hlt, hkfv]
              obtain ⟨ih1, ih2, ih3⟩ := ih (acc ++ [s.session_id])
                (⟨⟨stc.server.sessions.filter
                    (fun p => p.1 ≠ arcPfx ++ s.session_id),
                  stc.server.killFails⟩,
                 eraseReg s.session_id stc.registry⟩ : TmuxState) htail
                (fun t ht => by
                  have h1 := lookupReg_eraseReg_ne s.session_id t.session_id
                    stc.registry (fun hh => hne_tail t ht hh.symm)
                  dsimp only at h1 ⊢
                  rw [h1]
                  exact hreg t (List.mem_cons_of_mem s ht))
                (fun t ht => by
                  have hne : arcPfx ++ t.session_id ≠ arcPfx ++ s.session_id :=
                    fun hh => hne_tail t ht (List.append_cancel_left hh).symm
                  have h2 := hasSession_filter_ne stc.server.sessions
                    stc.server.killFails (arcPfx ++ t.session_id)
                    (arcPfx ++ s.session_id) hne
                  dsimp only at h2 ⊢
                  rw [h2]
                  exact hexists t (List.mem_cons_of_mem s ht))
                hkf
              refine ⟨?_, ?_, ?_⟩
              · rw [List.foldl_cons, hstep, ih1]
                simp [List.filterMap_cons, hsr]
              · intro name hname hall
                rw [List.foldl_cons, hstep]
                apply ih2 name ?_
                  (fun t ht => hall t (List.mem_cons_of_mem s ht))
                have h2 := hasSession_filter_ne stc.server.sessions
                  stc.server.killFails name (arcPfx ++ s.session_id)
                  (hall s (List.mem_cons_self s ss))
                dsimp only at h2 ⊢
                rw [h2]
                exact hname
              · intro t ht hsrt
                rcases List.mem_cons.mp ht with rfl | ht'
                · rw [hsrt] at hsr
                  cases hsr
                · rw [List.foldl_cons, hstep]
                  exact ih3 t ht' hsrt
          · -- cached creation time not older than the cutoff: retained
            have hstep : cleanupStep cutoff (acc, stc) s = (acc, stc) := by
              unfold cleanupStep
              dsimp only
              rw [hlook, hc]
              dsimp only
              rw [if_neg hlt]
            have hsr : shouldRemove st cutoff s.session_id = false := by
              simp [shouldRemove, hc, hlt]
            exact flow0 hstep hsr

/-- C5: `cleanupExpired(ttl)` removes exactly the listed sessions whose
cached creation time is strictly older than the TTL cutoff and whose
kill succeeds, and returns the list of ids it successfully removed
(`shouldRemove` spells out exactly that condition); every listed
session it does not remove — cached age under the TTL, no cached
creation time at all, or a failed kill — is retained, and a kill
failure for one session does not abort the sweep of the others (the
characterisation holds with failing kills interleaved); every removed
id had a cached creation time older than the cutoff, so a session with
no cached creation time is never treated as expired. -/
theorem cleanup_removes_exactly_expired (st : TmuxState) (now ttl : Int)
    (hnodup : (st.server.sessions.map Prod.fst).Nodup) :
    ((cleanup_expired_sessions st now ttl).1
      = (list_sessions st).filterMap (fun t =>
          if shouldRemove st (now - ttl * 3600) t.session_id = true
          then some t.session_id else none))
    ∧ (∀ t ∈ list_sessions st,
        shouldRemove st (now - ttl * 3600) t.session_id = false →
        hasSession (cleanup_expired_sessions st now ttl).2.server
          (arcPfx ++ t.session_id) = true)
    ∧ (∀ sid ∈ (cleanup_expired_sessions st now ttl).1,
        ∃ created, (lookupReg sid st.registry).bind RegEntry.created_at
            = some created ∧ created < now - ttl * 3600) := by
  have hids : (list_sessions st).map SessionInfo.session_id
      = st.server.sessions.filterMap (fun p => dropPfx arcPfx p.1) :=
    filterMap_session_ids st.registry st.server.sessions
  have hnodup' : ((list_sessions st).map SessionInfo.session_id).Nodup := by
    rw [hids]
    exact nodup_dropPfx_ids _ hnodup
  have hexists0 : ∀ s ∈ list_sessions st,
      hasSession st.server (arcPfx ++ s.session_id) = true := by
    intro s hs
    obtain ⟨p, hp, hsp⟩ := List.mem_filterMap.mp hs
    obtain ⟨h1, -⟩ := sessionFromPair_some hsp
    rw [hasSession_eq_mem_map]
    exact List.mem_map.mpr ⟨p, hp, h1⟩
  obtain ⟨h1, h2, h3⟩ := cleanup_fold st (now - ttl * 3600)
    (list_sessions st) [] st hnodup' (fun _ _ => rfl) hexists0 rfl
  have hdef : cleanup_expired_sessions st now ttl
      = (list_sessions st).foldl (cleanupStep (now - ttl * 3600)) ([], st) :=
    rfl
  refine ⟨?_, ?_, ?_⟩
  · rw [hdef, h1]
    simp
  · intro t ht hsrt
    rw [hdef]
    exact h3 t ht hsrt
  · intro sid hsid
    rw [hdef, h1] at hsid
    simp only [List.nil_append] at hsid
    obtain ⟨t, -, hts⟩ := List.mem_filterMap.mp hsid
    rcases Bool.eq_false_or_eq_true
      (shouldRemove st (now - ttl * 3600) t.session_id) with hb | hb
    · rw [if_pos hb] at hts
      injection hts with hts'
      subst hts'
      unfold shouldRemove at hb
      cases hc : (lookupReg t.session_id st.registry).bind RegEntry.created_at with
      | none => rw [hc] at hb; cases hb
      | some created =>
          rw [hc] at hb
          refine ⟨created, rfl, ?_⟩
          have := (Bool.and_eq_true _ _).mp hb
          exact of_decide_eq_true this.1
    · rw [if_neg (by simp [hb])] at hts
      cases hts

/-- A sample state for the C5 witness: session `e` is expired but its
kill fails, `a` is expired and killable, `b` is fresh, `c` has no
cached creation time, `d` has no registry entry at all. -/
def sweepSample : TmuxState :=
  ⟨⟨[(arcPfx ++ ['e'], 0), (arcPfx ++ ['a'], 0), (arcPfx ++ ['b'], 0),
     (arcPfx ++ ['c'], 0), (arcPfx ++ ['d'], 0)],
    fun n => n = arcPfx ++ ['e']⟩,
   [(['e'], ⟨['v'], some 0⟩), (['a'], ⟨['x'], some 10⟩),
    (['b'], ⟨['y'], some 5000⟩), (['c'], ⟨['z'], none⟩)]⟩

/-- Witness for C5 at `sweepSample` with `now = 7200`, `ttl = 1` hour
(cutoff 3600): exactly `a` is removed. -/
theorem cleanup_removes_exactly_expired_witness :
    (sweepSample.server.sessions.map Prod.fst).Nodup
    ∧ (((cleanup_expired_sessions sweepSample 7200 1).1
        = (list_sessions sweepSample).filterMap (fun t =>
            if shouldRemove sweepSample (7200 - 1 * 3600) t.session_id = true
            then some t.session_id else none))
      ∧ (∀ t ∈ list_sessions sweepSample,
          shouldRemove sweepSample (7200 - 1 * 3600) t.session_id = false →
          hasSession (cleanup_expired_sessions sweepSample 7200 1).2.server
            (arcPfx ++ t.session_id) = true)
      ∧ (∀ sid ∈ (cleanup_expired_sessions sweepSample 7200 1).1,
          ∃ created,
            (lookupReg sid sweepSample.registry).bind RegEntry.created_at
              = some created ∧ created < 7200 - 1 * 3600))
    ∧ (cleanup_expired_sessions sweepSample 7200 1).1 = [['a']] :=
  ⟨by decide,
   cleanup_removes_exactly_expired sweepSample 7200 1 (by decide),
   by decide⟩

end ARC4DE
